import Mathlib

/-!
Verification development for the recruitment-pipeline repository.

The pipeline (src/agents.py, src/graph.py, src/schemas.py) threads a state
record through four agent stages; the report aggregator (ragas_eval.py)
re-scores a finished run.  LLM generation and vector retrieval are external
collaborators: each is modelled as an explicit function parameter (a
"provider") returning the structured value the code would parse from the
model output.  Everything the repository itself computes — schema
validation, ranking, bundle building, weak-point extraction, record
filtering and score aggregation — is embedded directly from the source.
-/

namespace Recruit

/-- Embeds `CandidateMatch` from src/schemas.py: candidate_id, match_score
(int, pydantic `Field(..., ge=0, le=100)`), strengths, gaps, summary. -/
structure CandidateMatch where
  candidate_id : String
  match_score : Int
  strengths : List String
  gaps : List String
  summary : String
deriving DecidableEq, Repr

/-- Embeds pydantic construction of `CandidateMatch`: the `ge=0, le=100`
bounds on `match_score` are checked at construction and a violating value
is a validation error (`none`), not clamped. -/
def CandidateMatch.construct (candidate_id : String) (match_score : Int)
    (strengths gaps : List String) (summary : String) : Option CandidateMatch :=
  if 0 ≤ match_score ∧ match_score ≤ 100 then
    some ⟨candidate_id, match_score, strengths, gaps, summary⟩
  else
    none

/-- Embeds `ScreeningOutput` from src/schemas.py. -/
structure ScreeningOutput where
  ranked_candidates : List CandidateMatch
deriving DecidableEq, Repr

/-- Embeds `InterviewQuestion` from src/schemas.py. -/
structure InterviewQuestion where
  question : String
  skill_tested : String
  expected_answer_outline : List String
deriving DecidableEq, Repr

/-- Embeds `QuestionsOutput` from src/schemas.py. -/
structure QuestionsOutput where
  candidate_id : String
  questions : List InterviewQuestion
deriving DecidableEq, Repr

/-- Embeds `AnswerEvaluationItem` from src/schemas.py. -/
structure AnswerEvaluationItem where
  question : String
  answer : String
  score : Int
  feedback : String
  missing_points : List String
deriving DecidableEq, Repr

/-- Embeds `AnswerEvaluationOutput` from src/schemas.py. -/
structure AnswerEvaluationOutput where
  candidate_id : String
  overall_score : Int
  detailed : List AnswerEvaluationItem
  final_verdict : String
deriving DecidableEq, Repr

/-- Embeds `WeeklyPlan` from src/schemas.py. -/
structure WeeklyPlan where
  week : Int
  goals : List String
  topics : List String
  resources : List String
deriving DecidableEq, Repr

/-- Embeds `LearningPlan` from src/schemas.py (optional fields as `Option`). -/
structure LearningPlan where
  candidate_id : Option String
  summary : Option String
  plan_by_week : List WeeklyPlan
  practice_projects : Option (List String)
  resources : Option (List String)
  focus_areas : Option (List String)
  recommended_resources : List String
deriving DecidableEq, Repr

/-! ### Screening stage (src/agents.py, `resume_screening_agent`) -/

/-- The comparison the Python call `sorted(key=lambda x: x.match_score, reverse=True)`
effectively sorts by: `a` may precede `b` iff `b.match_score ≤ a.match_score`. -/
def scoreDescLE (a b : CandidateMatch) : Bool :=
  decide (b.match_score ≤ a.match_score)

/-- Embeds `resume_screening_agent` from src/agents.py.  `gen jd cid` stands
for the structured generation call for one candidate: the
`ranked_candidates` list of the `ScreeningOutput` the LLM returns for that
candidate (the prompt requests exactly one `CandidateMatch`, but the code
extends by whatever list comes back).  The collected matches are sorted by
`match_score` descending; the Python builtin `sorted` is stable, as `mergeSort` is. -/
def resume_screening_agent (gen : String → String → List CandidateMatch)
    (jd_query : String) (candidate_ids : List String) : ScreeningOutput :=
  let all_matches := candidate_ids.flatMap (fun cid => gen jd_query cid)
  ⟨all_matches.mergeSort scoreDescLE⟩

/-! ### Answer-evaluation stage (src/agents.py, `answer_evaluation_agent`) -/

/-- One entry of the `q_bundle` list built by `answer_evaluation_agent`. -/
structure QABundle where
  question : String
  skill_tested : String
  expected_answer_outline : List String
  answer : String
deriving DecidableEq, Repr

/-- Embeds the `q_bundle` construction loop of `answer_evaluation_agent`
(src/agents.py): `for q in questions_output.questions: q_bundle.append({...})`
with `answers.get(q.question, "")`.  The answer map (a Python dict with
unique keys) is modelled as an association list. -/
def build_q_bundle (questions_output : QuestionsOutput)
    (answers : List (String × String)) : List QABundle :=
  questions_output.questions.foldl
    (fun q_bundle q =>
      q_bundle ++ [⟨q.question, q.skill_tested, q.expected_answer_outline,
        ((answers.lookup q.question).getD "")⟩])
    []

/-- Embeds `answer_evaluation_agent` from src/agents.py.  `eGen` is the
single structured generation call, given the candidate id the node passed
in (possibly `none`), the job query, and the built bundle list. -/
def answer_evaluation_agent
    (eGen : Option String → String → List QABundle → AnswerEvaluationOutput)
    (candidate_id : Option String) (jd_query : String)
    (questions_output : QuestionsOutput) (answers : List (String × String)) :
    AnswerEvaluationOutput :=
  eGen candidate_id jd_query (build_q_bundle questions_output answers)

/-! ### Learning-plan stage (src/agents.py, `learning_plan_agent`) -/

/-- Embeds the weak-point extraction loop of `learning_plan_agent`
(src/agents.py): `for item in eval_output.detailed: if item.score <= 6:
weak_points.extend(item.missing_points)`. -/
def learning_plan_weak_points (eval_output : AnswerEvaluationOutput) :
    List String :=
  eval_output.detailed.foldl
    (fun weak_points item =>
      if item.score ≤ 6 then weak_points ++ item.missing_points else weak_points)
    []

/-- Embeds `learning_plan_agent` from src/agents.py.  `pGen` is the single
structured generation call, given candidate id, screening gaps and the
extracted weak points. -/
def learning_plan_agent
    (pGen : Option String → List String → List String → LearningPlan)
    (candidate_id : Option String) (gaps : List String)
    (eval_output : AnswerEvaluationOutput) : LearningPlan :=
  pGen candidate_id gaps (learning_plan_weak_points eval_output)

/-! ### Pipeline state and graph nodes (src/graph.py) -/

/-- Embeds `RecruitState` from src/graph.py (a `TypedDict` with `Optional`
fields; the answer map is an association list). -/
structure RecruitState where
  jd_query : String
  candidate_ids : List String
  screening : Option ScreeningOutput
  selected_candidate_id : Option String
  questions : Option QuestionsOutput
  answers : Option (List (String × String))
  evaluation : Option AnswerEvaluationOutput
  learning_plan : Option LearningPlan
deriving DecidableEq, Repr

/-- Embeds `node_screen_resumes` from src/graph.py: run the screening agent,
take `ranked_candidates[0].candidate_id` if the list is non-empty else
`None`, and write both fields into the state. -/
def node_screen_resumes (gen : String → String → List CandidateMatch)
    (state : RecruitState) : RecruitState :=
  let screening := resume_screening_agent gen state.jd_query state.candidate_ids
  let top_candidate :=
    match screening.ranked_candidates with
    | [] => none
    | c :: _ => some c.candidate_id
  { state with screening := some screening, selected_candidate_id := top_candidate }

/-- Embeds `interview_question_agent` from src/agents.py: retrieval plus one
structured generation call, modelled by the provider `qGen` applied to the
candidate id the node passed in (possibly `None`), the job query and the
requested question count.  The function has no branch on the id. -/
def interview_question_agent
    (qGen : Option String → String → Nat → QuestionsOutput)
    (candidate_id : Option String) (jd_query : String) (num_questions : Nat) :
    QuestionsOutput :=
  qGen candidate_id jd_query num_questions

/-- Embeds `node_generate_questions` from src/graph.py: it reads
`selected_candidate_id` (possibly `None`) and hands it to the question
agent unconditionally, storing the full agent output. -/
def node_generate_questions
    (qGen : Option String → String → Nat → QuestionsOutput)
    (state : RecruitState) : RecruitState :=
  let cid := state.selected_candidate_id
  let questions := interview_question_agent qGen cid state.jd_query 6
  { state with questions := some questions }

/-- Embeds `node_evaluate_answers` from src/graph.py.  Python reads
`state["questions"]` and `state["answers"]` and would raise if either were
still `None` (attribute/`.get` access on `None`); `none` models that raise. -/
def node_evaluate_answers
    (eGen : Option String → String → List QABundle → AnswerEvaluationOutput)
    (state : RecruitState) : Option RecruitState :=
  match state.questions, state.answers with
  | some qs, some ans =>
      let ev := answer_evaluation_agent eGen state.selected_candidate_id state.jd_query qs ans
      some { state with evaluation := some ev }
  | _, _ => none

/-- Embeds the gap-lookup loop of `node_learning_plan` (src/graph.py):
`gaps = []; for c in ranked_candidates: if c.candidate_id == cid: gaps =
c.gaps; break`.  `cid` is `Optional`; comparing a string to `None` is
`False` in Python, hence the `some`-wrapped comparison. -/
def lookupGaps (cands : List CandidateMatch) (cid : Option String) :
    List String :=
  match cands with
  | [] => []
  | c :: rest => if some c.candidate_id = cid then c.gaps else lookupGaps rest cid

/-- Embeds `node_learning_plan` from src/graph.py: look up the selected
gaps of the selected candidate in the screening result (empty list when `screening` is
`None` or no entry matches), then call the learning-plan agent.  Python
would raise inside the agent if `state["evaluation"]` were `None`
(`eval_output.detailed` on `None`); `none` models that raise. -/
def node_learning_plan
    (pGen : Option String → List String → List String → LearningPlan)
    (state : RecruitState) : Option RecruitState :=
  match state.evaluation with
  | none => none
  | some ev =>
      let cid := state.selected_candidate_id
      let gaps :=
        match state.screening with
        | some s => lookupGaps s.ranked_candidates cid
        | none => []
      let plan := learning_plan_agent pGen cid gaps ev
      some { state with learning_plan := some plan }

/-! ### Report aggregator, reference-based track (ragas_eval.py) -/

/-- One item of `data["evaluation"]["detailed"]` as ragas_eval.py reads it:
a JSON dict from which only `question`, `answer` and the optional
`retrieved_contexts` key are used. -/
structure RagasEvalItem where
  question : String
  answer : String
  retrieved_contexts : Option (List String)
deriving DecidableEq, Repr

/-- One record appended to `records` in ragas_eval.py. -/
structure RagasRecord where
  question : String
  answer : String
  contexts : List String
  reference : String
deriving DecidableEq, Repr

/-- Embeds `outline_map.get(key)` where `outline_map` is the dict
comprehension of ragas_eval.py mapping each question text to its
space-joined `expected_answer_outline`.  A dict comprehension lets a later
duplicate key overwrite an earlier one, hence the last matching question
wins. -/
def outline_map_get (questions : List InterviewQuestion) (key : String) :
    Option String :=
  (questions.reverse.find? (fun q => q.question == key)).map
    (fun q => String.intercalate " " q.expected_answer_outline)

/-- Models the Python method `str.strip()`: drop leading and trailing
whitespace characters. -/
def pyStrip (s : String) : String :=
  ((s.data.dropWhile Char.isWhitespace).reverse.dropWhile
    Char.isWhitespace).reverse.asString

/-- Embeds the record-building loop of ragas_eval.py: an evaluation item
contributes a record only when `ev["answer"].strip()` is truthy (non-empty
after stripping whitespace) and `ref = outline_map.get(ev["question"])` is
truthy (present and non-empty); `contexts` falls back to `[ref]` when the
item carries no `retrieved_contexts`. -/
def ragas_records (questions : List InterviewQuestion)
    (evaluation : List RagasEvalItem) : List RagasRecord :=
  evaluation.foldl
    (fun records ev =>
      if pyStrip ev.answer ≠ "" then
        match outline_map_get questions ev.question with
        | some ref =>
            if ref ≠ "" then
              records ++ [⟨ev.question, ev.answer,
                ev.retrieved_contexts.getD [ref], ref⟩]
            else records
        | none => records
      else records)
    []

/-- Models the Python call `round(x, 1)` on exact rationals: round `x * 10` to the
nearest integer, halves to even (banker rounding), divide by 10. -/
def pyRound1 (x : ℚ) : ℚ :=
  let y := x * 10
  let f : ℤ := ⌊y⌋
  let frac : ℚ := y - f
  let n : ℤ :=
    if frac < 1 / 2 then f
    else if 1 / 2 < frac then f + 1
    else if f % 2 = 0 then f else f + 1
  (n : ℚ) / 10

/-- Embeds the three per-metric means of ragas_eval.py.  The ragas
`evaluate` call and the pandas column means are the external metric
computation, modelled by the provider `ragasMeans` applied to the record
set; when `records` is falsy (empty) the `else` branch sets all three
averages to `0.0`. -/
def avg_metrics (ragasMeans : List RagasRecord → ℚ × ℚ × ℚ)
    (questions : List InterviewQuestion) (evaluation : List RagasEvalItem) :
    ℚ × ℚ × ℚ :=
  let records := ragas_records questions evaluation
  if records = [] then (0, 0, 0) else ragasMeans records

/-- Embeds `candidate_score` of ragas_eval.py: `0.0` when no records
survive filtering, else `round((avg_relevancy + avg_faithfulness +
avg_precision) / 3 * 5, 1)`. -/
def candidate_score (ragasMeans : List RagasRecord → ℚ × ℚ × ℚ)
    (questions : List InterviewQuestion) (evaluation : List RagasEvalItem) :
    ℚ :=
  let records := ragas_records questions evaluation
  if records = [] then 0
  else
    let m := ragasMeans records
    let total_avg := (m.1 + m.2.1 + m.2.2) / 3
    pyRound1 (total_avg * 5)

/-! ### Helper lemmas -/

theorem foldl_append_singleton {α β : Type} (f : α → β) :
    ∀ (l : List α) (init : List β),
      l.foldl (fun acc a => acc ++ [f a]) init = init ++ l.map f
  | [], init => by simp
  | a :: l, init => by
      rw [List.foldl_cons, foldl_append_singleton f l (init ++ [f a])]
      simp

theorem weak_points_foldl_aux :
    ∀ (l : List AnswerEvaluationItem) (init : List String),
      l.foldl
          (fun acc item =>
            if item.score ≤ 6 then acc ++ item.missing_points else acc) init
        = init ++ ((l.filter (fun i => decide (i.score ≤ 6))).map
            AnswerEvaluationItem.missing_points).flatten
  | [], init => by simp
  | item :: l, init => by
      by_cases h : item.score ≤ 6
      · rw [List.foldl_cons, if_pos h,
          weak_points_foldl_aux l (init ++ item.missing_points)]
        simp [h]
      · rw [List.foldl_cons, if_neg h, weak_points_foldl_aux l init]
        simp [h]

theorem scoreDescLE_trans (a b c : CandidateMatch) :
    scoreDescLE a b → scoreDescLE b c → scoreDescLE a c := by
  simp only [scoreDescLE, decide_eq_true_eq]
  omega

theorem scoreDescLE_total (a b : CandidateMatch) :
    scoreDescLE a b || scoreDescLE b a := by
  simp only [scoreDescLE, Bool.or_eq_true, decide_eq_true_eq]
  omega

theorem filter_score_mergeSort (l : List CandidateMatch) (s : Int) :
    (l.mergeSort scoreDescLE).filter (fun m => m.match_score == s)
      = l.filter (fun m => m.match_score == s) := by
  have hpair : (l.filter (fun m => m.match_score == s)).Pairwise
      (fun a b => scoreDescLE a b = true) := by
    apply List.pairwise_of_forall_mem_list
    intro a ha b hb
    have ha2 := (List.mem_filter.mp ha).2
    have hb2 := (List.mem_filter.mp hb).2
    simp only [beq_iff_eq] at ha2 hb2
    simp [scoreDescLE, ha2, hb2]
  have hsub : List.Sublist (l.filter (fun m => m.match_score == s))
      (l.mergeSort scoreDescLE) :=
    List.sublist_mergeSort scoreDescLE_trans scoreDescLE_total hpair
      (List.filter_sublist l)
  have hsub2 : List.Sublist (l.filter (fun m => m.match_score == s))
      ((l.mergeSort scoreDescLE).filter (fun m => m.match_score == s)) := by
    have h := hsub.filter (fun m => m.match_score == s)
    simpa using h
  have hlen : ((l.mergeSort scoreDescLE).filter
        (fun m => m.match_score == s)).length
      = (l.filter (fun m => m.match_score == s)).length :=
    ((List.mergeSort_perm l scoreDescLE).filter
      (fun m => m.match_score == s)).length_eq
  exact (hsub2.eq_of_length hlen.symm).symm

theorem flatMap_singleton_ids
    (gen : String → String → List CandidateMatch) (jd_query : String) :
    ∀ (ids : List String),
      (∀ cid ∈ ids, ∃ m : CandidateMatch,
          gen jd_query cid = [m] ∧ m.candidate_id = cid) →
      (ids.flatMap (fun cid => gen jd_query cid)).map
          (fun m => m.candidate_id) = ids
  | [], _ => by simp
  | cid :: ids, h => by
      obtain ⟨m, hm, hid⟩ := h cid (by simp)
      rw [List.flatMap_cons, List.map_append, hm,
        flatMap_singleton_ids gen jd_query ids (fun c hc => h c (by simp [hc]))]
      simp [hid]

/-! ### Claim theorems -/

/-- Deterministic screening stub whose per-candidate scores are
40, 90, 90, 10 in generation order, used for the worked example of C1. -/
def exGenScores : String → String → List CandidateMatch := fun _ cid =>
  match cid with
  | "a" => [⟨"a", 40, [], [], ""⟩]
  | "b" => [⟨"b", 90, [], [], ""⟩]
  | "c" => [⟨"c", 90, [], [], ""⟩]
  | _ => [⟨"d", 10, [], [], ""⟩]

/-- C1: the screening output is the collected match list stable-sorted
descending by `match_score`: it is a permutation of the collected list,
pairwise descending, and for every score the matches carrying that score
keep their original generation order (their filtered subsequence is
unchanged).  On collected scores 40, 90, 90, 10 the result is the two 90s
in original relative order, then 40, then 10. -/
theorem screening_sort_stable_desc
    (gen : String → String → List CandidateMatch) (jd_query : String)
    (candidate_ids : List String) :
    ((resume_screening_agent gen jd_query candidate_ids).ranked_candidates).Perm
        (candidate_ids.flatMap (fun cid => gen jd_query cid))
      ∧ ((resume_screening_agent gen jd_query
            candidate_ids).ranked_candidates).Pairwise
          (fun a b => b.match_score ≤ a.match_score)
      ∧ (∀ s : Int,
          ((resume_screening_agent gen jd_query
              candidate_ids).ranked_candidates).filter
              (fun m => m.match_score == s)
            = (candidate_ids.flatMap (fun cid => gen jd_query cid)).filter
                (fun m => m.match_score == s))
      ∧ ((resume_screening_agent exGenScores "jd"
            ["a", "b", "c", "d"]).ranked_candidates).map
            (fun m => (m.candidate_id, m.match_score))
          = [("b", 90), ("c", 90), ("a", 40), ("d", 10)] := by
  refine ⟨?_, ?_, ?_, by
    simp [resume_screening_agent, exGenScores, scoreDescLE,
      List.mergeSort, List.splitInTwo, List.splitAt_eq, List.merge]⟩
  · exact List.mergeSort_perm _ _
  · exact (List.sorted_mergeSort scoreDescLE_trans scoreDescLE_total _).imp
      (fun h => by simpa [scoreDescLE] using h)
  · intro s
    exact filter_score_mergeSort _ s

/-- C2: with pairwise-distinct identifiers and a generation call that
returns exactly one match (carrying the requested id) per candidate, the
screening result holds exactly one match per input identifier — its id
sequence is a permutation of the input ids and each id occurs once. -/
theorem screening_one_match_each
    (gen : String → String → List CandidateMatch) (jd_query : String)
    (candidate_ids : List String) (_hne : candidate_ids ≠ [])
    (hnodup : candidate_ids.Nodup)
    (hgen : ∀ cid ∈ candidate_ids, ∃ m : CandidateMatch,
        gen jd_query cid = [m] ∧ m.candidate_id = cid) :
    (((resume_screening_agent gen jd_query
        candidate_ids).ranked_candidates).map
        (fun m => m.candidate_id)).Perm candidate_ids
      ∧ ∀ cid ∈ candidate_ids,
          (((resume_screening_agent gen jd_query
              candidate_ids).ranked_candidates).map
              (fun m => m.candidate_id)).count cid = 1 := by
  have hperm : (((resume_screening_agent gen jd_query
      candidate_ids).ranked_candidates).map
      (fun m => m.candidate_id)).Perm candidate_ids := by
    have h1 := (List.mergeSort_perm
      (candidate_ids.flatMap (fun cid => gen jd_query cid)) scoreDescLE).map
      (fun m => m.candidate_id)
    exact h1.trans
      (by rw [flatMap_singleton_ids gen jd_query candidate_ids hgen])
  refine ⟨hperm, fun cid hc => ?_⟩
  rw [hperm.count_eq]
  exact List.count_eq_one_of_mem hnodup hc

/-- Screening stub returning exactly one match per candidate. -/
def genSingleton : String → String → List CandidateMatch :=
  fun _ cid => [⟨cid, 50, [], [], ""⟩]

/-- Witness for C2 at the candidate list `["a", "b"]` with a stub provider
returning one match per candidate. -/
theorem screening_one_match_each_witness :
    (["a", "b"] : List String) ≠ []
      ∧ (["a", "b"] : List String).Nodup
      ∧ (((resume_screening_agent genSingleton "jd"
          ["a", "b"]).ranked_candidates).map
          (fun m => m.candidate_id)).Perm ["a", "b"] :=
  ⟨by decide, by decide,
    (screening_one_match_each genSingleton "jd" ["a", "b"] (by decide)
      (by decide) (fun cid _ => ⟨⟨cid, 50, [], [], ""⟩, rfl, rfl⟩)).1⟩

/-- C3: constructing a `CandidateMatch` with `match_score = m` succeeds
exactly when `0 ≤ m ≤ 100`, and on success the stored score is `m` itself
(never clamped); outside the range construction is a validation failure. -/
theorem candidate_match_score_bounds (candidate_id : String) (m : Int)
    (strengths gaps : List String) (summary : String) :
    (CandidateMatch.construct candidate_id m strengths gaps summary).map
        CandidateMatch.match_score
      = if 0 ≤ m ∧ m ≤ 100 then some m else none := by
  by_cases h : 0 ≤ m ∧ m ≤ 100 <;> simp [CandidateMatch.construct, h]

/-- C4: after the screening node runs, `selected_candidate_id` is the
candidate id of the first entry of the sorted screening result, and an
empty candidate list yields `none` rather than a failure. -/
theorem selected_candidate_is_top (gen : String → String → List CandidateMatch)
    (state : RecruitState) :
    (node_screen_resumes gen state).selected_candidate_id
        = ((resume_screening_agent gen state.jd_query
            state.candidate_ids).ranked_candidates.head?).map
            CandidateMatch.candidate_id
      ∧ (state.candidate_ids = [] →
          (node_screen_resumes gen state).selected_candidate_id = none) := by
  constructor
  · show (match (resume_screening_agent gen state.jd_query
        state.candidate_ids).ranked_candidates with
      | [] => none
      | c :: _ => some c.candidate_id) = _
    cases (resume_screening_agent gen state.jd_query
        state.candidate_ids).ranked_candidates <;> simp
  · intro h
    show (match (resume_screening_agent gen state.jd_query
        state.candidate_ids).ranked_candidates with
      | [] => none
      | c :: _ => some c.candidate_id) = none
    simp [resume_screening_agent, h]

def genNone : String → String → List CandidateMatch := fun _ _ => []

def stateEmpty : RecruitState :=
  ⟨"jd", [], none, none, none, none, none, none⟩

/-- Witness for C4: on an empty candidate list the node stores `none`. -/
theorem selected_candidate_is_top_witness :
    stateEmpty.candidate_ids = []
      ∧ (node_screen_resumes genNone stateEmpty).selected_candidate_id = none :=
  ⟨rfl, (selected_candidate_is_top genNone stateEmpty).2 rfl⟩

/-- C6: the evaluation-bundle list built by the answer-evaluation stage has
exactly one bundle per question, in question-set order, each pairing the
question text, skill and expected outline with the answer looked up by
exact question text, defaulting to the empty string when absent. -/
theorem q_bundle_per_question (questions_output : QuestionsOutput)
    (answers : List (String × String)) :
    build_q_bundle questions_output answers
      = questions_output.questions.map
          (fun q => ⟨q.question, q.skill_tested, q.expected_answer_outline,
            ((answers.lookup q.question).getD "")⟩) := by
  unfold build_q_bundle
  rw [foldl_append_singleton]
  simp

/-- C7: the weak-point list extracted by the learning-plan stage is the
in-order concatenation of the `missing_points` of exactly those detailed
items whose score is at most 6; items scoring 7 or above contribute
nothing and duplicates are kept.  As a pure function of the evaluation it
is deterministic. -/
theorem weak_points_spec (eval_output : AnswerEvaluationOutput) :
    learning_plan_weak_points eval_output
      = ((eval_output.detailed.filter (fun i => decide (i.score ≤ 6))).map
          AnswerEvaluationItem.missing_points).flatten := by
  unfold learning_plan_weak_points
  rw [weak_points_foldl_aux]
  simp

/-! ### C5 and C9: downstream behavior on the selected candidate id -/

/-- Question-agent stub returning one fixed question. -/
def qStub : Option String → String → Nat → QuestionsOutput :=
  fun _ _ _ => ⟨"stub", [⟨"Q1", "skill", ["point"]⟩]⟩

/-- A state as left by screening an empty candidate list: empty screening
result, null selected candidate. -/
def stateNullSelected : RecruitState :=
  ⟨"jd", [], some ⟨[]⟩, none, none, none, none, none⟩

/-- C5 counterexample: at a concrete state with a null
`selected_candidate_id` (empty candidate set) and a generation provider
returning one question, the question-generation node does not skip: the
stored question set is not empty, contradicting the claimed
"skip, produce empty output" policy. -/
theorem null_selected_no_skip_counterexample :
    stateNullSelected.selected_candidate_id = none
      ∧ ((node_generate_questions qStub stateNullSelected).questions).map
          QuestionsOutput.questions ≠ some [] := by
  decide

/-- C5 amended: downstream nodes do not special-case a null
`selected_candidate_id`: each passes the null identifier to its generation
agent unchanged and stores the full agent output (so emptiness of the
output depends solely on the provider); the nodes themselves are total
functions of the state and providers, hence do not crash. -/
theorem null_selected_passthrough
    (qGen : Option String → String → Nat → QuestionsOutput)
    (eGen : Option String → String → List QABundle → AnswerEvaluationOutput)
    (pGen : Option String → List String → List String → LearningPlan)
    (st : RecruitState) (h : st.selected_candidate_id = none) :
    node_generate_questions qGen st
        = { st with questions := some (qGen none st.jd_query 6) }
      ∧ (∀ qs ans, st.questions = some qs → st.answers = some ans →
          node_evaluate_answers eGen st
            = some { st with
                evaluation := some (eGen none st.jd_query (build_q_bundle qs ans)) })
      ∧ (∀ s ev, st.screening = some s → st.evaluation = some ev →
          node_learning_plan pGen st
            = some { st with
                learning_plan := some (pGen none (lookupGaps s.ranked_candidates none)
                  (learning_plan_weak_points ev)) }) := by
  refine ⟨?_, ?_, ?_⟩
  · simp [node_generate_questions, interview_question_agent, h]
  · intro qs ans hq ha
    simp [node_evaluate_answers, answer_evaluation_agent, hq, ha, h]
  · intro s ev hs hev
    simp [node_learning_plan, learning_plan_agent, hs, hev, h]

/-- Question set with a single question, used in concrete states. -/
def qsOne : QuestionsOutput := ⟨"stub", [⟨"Q1", "skill", ["point"]⟩]⟩

/-- Evaluation output stub with one weak item. -/
def evalStub : AnswerEvaluationOutput :=
  ⟨"stub", 50, [⟨"Q1", "ans", 5, "fb", ["mp"]⟩], "No Hire"⟩

/-- Evaluation-agent stub. -/
def eStub : Option String → String → List QABundle → AnswerEvaluationOutput :=
  fun _ _ _ => evalStub

/-- Learning-plan-agent stub recording its gap and weak-point inputs. -/
def pStub : Option String → List String → List String → LearningPlan :=
  fun cid gaps wps => ⟨cid, none, [], none, none, none, gaps ++ wps⟩

/-- A null-selected state in which every upstream field is populated. -/
def stateNullFull : RecruitState :=
  ⟨"jd", [], some ⟨[]⟩, none, some qsOne, some [], some evalStub, none⟩

/-- Witness for the amended C5 at a concrete null-selected state. -/
theorem null_selected_passthrough_witness :
    stateNullFull.selected_candidate_id = none
      ∧ node_generate_questions qStub stateNullFull
          = { stateNullFull with questions := some (qStub none "jd" 6) } :=
  ⟨rfl, (null_selected_passthrough qStub eStub pStub stateNullFull rfl).1⟩

theorem lookupGaps_of_no_match :
    ∀ (cands : List CandidateMatch) (cid : Option String),
      (∀ c ∈ cands, some c.candidate_id ≠ cid) → lookupGaps cands cid = []
  | [], _, _ => rfl
  | c :: rest, cid, h => by
      rw [lookupGaps, if_neg (h c (by simp))]
      exact lookupGaps_of_no_match rest cid (fun c2 hc => h c2 (by simp [hc]))

theorem lookupGaps_first_match :
    ∀ (l1 : List CandidateMatch) (c : CandidateMatch)
      (l2 : List CandidateMatch) (cid : Option String),
      some c.candidate_id = cid → (∀ c2 ∈ l1, some c2.candidate_id ≠ cid) →
      lookupGaps (l1 ++ c :: l2) cid = c.gaps
  | [], c, l2, cid, hc, _ => by simp [lookupGaps, hc]
  | a :: l1, c, l2, cid, hc, h => by
      rw [List.cons_append, lookupGaps, if_neg (h a (by simp))]
      exact lookupGaps_first_match l1 c l2 cid hc (fun c2 h2 => h c2 (by simp [h2]))

/-- C9: when computing learning-plan gaps, a selected candidate id matching
no screening entry yields the empty gap list and the node still produces a
plan; when an entry matches (first match, as the loop breaks), the gap
list is that entry's gap list. -/
theorem gaps_lookup_policy
    (pGen : Option String → List String → List String → LearningPlan)
    (st : RecruitState) (s : ScreeningOutput) (ev : AnswerEvaluationOutput)
    (hs : st.screening = some s) (hev : st.evaluation = some ev) :
    ((∀ c ∈ s.ranked_candidates,
        some c.candidate_id ≠ st.selected_candidate_id) →
      node_learning_plan pGen st
        = some { st with
            learning_plan := some (pGen st.selected_candidate_id []
              (learning_plan_weak_points ev)) })
    ∧ (∀ l1 (c : CandidateMatch) l2,
        s.ranked_candidates = l1 ++ c :: l2 →
        some c.candidate_id = st.selected_candidate_id →
        (∀ c2 ∈ l1, some c2.candidate_id ≠ st.selected_candidate_id) →
        node_learning_plan pGen st
          = some { st with
              learning_plan := some (pGen st.selected_candidate_id c.gaps
                (learning_plan_weak_points ev)) }) := by
  constructor
  · intro hnone
    simp [node_learning_plan, learning_plan_agent, hs, hev,
      lookupGaps_of_no_match s.ranked_candidates st.selected_candidate_id hnone]
  · intro l1 c l2 hsplit hc hl1
    have hlook : lookupGaps s.ranked_candidates st.selected_candidate_id = c.gaps := by
      rw [hsplit]
      exact lookupGaps_first_match l1 c l2 st.selected_candidate_id hc hl1
    simp [node_learning_plan, learning_plan_agent, hs, hev, hlook]

/-- Screening result with a single candidate `"a"`. -/
def screeningOne : ScreeningOutput := ⟨[⟨"a", 80, [], ["gapA"], ""⟩]⟩

/-- A state whose selected candidate `"b"` matches no screening entry. -/
def stateNoMatch : RecruitState :=
  ⟨"jd", ["a"], some screeningOne, some "b", some qsOne, some [], some evalStub, none⟩

/-- Witness for C9: the unmatched candidate `"b"` yields an empty gap list
and the node still succeeds. -/
theorem gaps_lookup_policy_witness :
    stateNoMatch.screening = some screeningOne
      ∧ stateNoMatch.evaluation = some evalStub
      ∧ node_learning_plan pStub stateNoMatch
          = some { stateNoMatch with
              learning_plan := some (pStub (some "b") []
                (learning_plan_weak_points evalStub)) } :=
  ⟨rfl, rfl,
    (gaps_lookup_policy pStub stateNoMatch screeningOne evalStub rfl rfl).1
      (by decide)⟩

/-! ### C8 and C10: report-aggregator record filtering and composite score -/

/-- The contribution of one evaluation item to the aggregator record list:
one record, or nothing when the item is filtered out. -/
def rec_of (questions : List InterviewQuestion) (ev : RagasEvalItem) :
    List RagasRecord :=
  if pyStrip ev.answer ≠ "" then
    match outline_map_get questions ev.question with
    | some ref =>
        if ref ≠ "" then
          [⟨ev.question, ev.answer, ev.retrieved_contexts.getD [ref], ref⟩]
        else []
    | none => []
  else []

theorem ragas_records_foldl_aux (questions : List InterviewQuestion) :
    ∀ (evaluation : List RagasEvalItem) (init : List RagasRecord),
      evaluation.foldl
          (fun records ev =>
            if pyStrip ev.answer ≠ "" then
              match outline_map_get questions ev.question with
              | some ref =>
                  if ref ≠ "" then
                    records ++ [⟨ev.question, ev.answer,
                      ev.retrieved_contexts.getD [ref], ref⟩]
                  else records
              | none => records
            else records) init
        = init ++ (evaluation.map (rec_of questions)).flatten
  | [], _ => by simp
  | ev :: evs, init => by
      rw [List.foldl_cons, ragas_records_foldl_aux questions evs]
      have hstep : (if pyStrip ev.answer ≠ "" then
          match outline_map_get questions ev.question with
          | some ref =>
              if ref ≠ "" then
                init ++ [⟨ev.question, ev.answer,
                  ev.retrieved_contexts.getD [ref], ref⟩]
              else init
          | none => init
        else init) = init ++ rec_of questions ev := by
        unfold rec_of
        by_cases h : pyStrip ev.answer ≠ ""
        · rw [if_pos h, if_pos h]
          cases outline_map_get questions ev.question with
          | none => simp
          | some ref => by_cases h2 : ref ≠ "" <;> simp [h2]
        · simp [h]
      rw [hstep]
      simp

/-- The record list is the concatenation of per-item contributions. -/
theorem ragas_records_eq (questions : List InterviewQuestion)
    (evaluation : List RagasEvalItem) :
    ragas_records questions evaluation
      = (evaluation.map (rec_of questions)).flatten := by
  unfold ragas_records
  rw [ragas_records_foldl_aux]
  simp

theorem rec_of_empty_answer (questions : List InterviewQuestion)
    (ev : RagasEvalItem) (h : pyStrip ev.answer = "") :
    rec_of questions ev = [] := by
  simp [rec_of, h]

theorem rec_of_question_mem (questions : List InterviewQuestion)
    (ev : RagasEvalItem) (r : RagasRecord) (h : r ∈ rec_of questions ev) :
    r.question = ev.question ∧ ∃ q ∈ questions, q.question = ev.question := by
  unfold rec_of at h
  by_cases h1 : pyStrip ev.answer ≠ ""
  case neg => simp [h1] at h
  case pos =>
    rw [if_pos h1] at h
    cases houtline : outline_map_get questions ev.question with
    | none => rw [houtline] at h; simp at h
    | some ref =>
        rw [houtline] at h
        by_cases h2 : ref ≠ ""
        case neg => simp [h2] at h
        case pos =>
          have hr : r = ⟨ev.question, ev.answer,
              ev.retrieved_contexts.getD [ref], ref⟩ := by simpa [h2] using h
          refine ⟨by rw [hr], ?_⟩
          unfold outline_map_get at houtline
          obtain ⟨q, hfind, -⟩ := Option.map_eq_some'.mp houtline
          refine ⟨q, List.mem_reverse.mp (List.mem_of_find?_eq_some hfind), ?_⟩
          have := List.find?_some hfind
          simpa using this

theorem outline_map_get_none (questions : List InterviewQuestion) (k : String)
    (h : ∀ q ∈ questions, q.question ≠ k) :
    outline_map_get questions k = none := by
  have hfind : questions.reverse.find? (fun q => q.question == k) = none :=
    List.find?_eq_none.mpr
      (fun q hq => by simpa using h q (List.mem_reverse.mp hq))
  simp [outline_map_get, hfind]

theorem flatten_rec_of_filter (questions : List InterviewQuestion) :
    ∀ evaluation : List RagasEvalItem,
      ((evaluation.filter (fun ev => !(pyStrip ev.answer == ""))).map
          (rec_of questions)).flatten
        = (evaluation.map (rec_of questions)).flatten
  | [] => rfl
  | ev :: evs => by
      by_cases h : pyStrip ev.answer = ""
      · rw [List.filter_cons]
        simp [h, rec_of_empty_answer questions ev h,
          flatten_rec_of_filter questions evs]
      · rw [List.filter_cons]
        simp [h, flatten_rec_of_filter questions evs]

/-- C8: in the reference-based track, whitespace-only answers are excluded
from the record set; an empty record set yields metric means (0,0,0) and
composite 0; a non-empty record set yields composite
round((relevancy mean + faithfulness mean + precision mean) / 3 × 5, 1);
and means 0.8, 0.6, 1.0 give composite 4.0. -/
theorem aggregator_composite_score
    (ragasMeans : List RagasRecord → ℚ × ℚ × ℚ)
    (questions : List InterviewQuestion) (evaluation : List RagasEvalItem) :
    ragas_records questions evaluation
        = ragas_records questions
            (evaluation.filter (fun ev => !(pyStrip ev.answer == "")))
      ∧ (ragas_records questions evaluation = [] →
          avg_metrics ragasMeans questions evaluation = (0, 0, 0)
            ∧ candidate_score ragasMeans questions evaluation = 0)
      ∧ (ragas_records questions evaluation ≠ [] →
          candidate_score ragasMeans questions evaluation
            = pyRound1 (((ragasMeans (ragas_records questions evaluation)).1
                + (ragasMeans (ragas_records questions evaluation)).2.1
                + (ragasMeans (ragas_records questions evaluation)).2.2)
                / 3 * 5))
      ∧ pyRound1 ((4 / 5 + 3 / 5 + 1) / 3 * 5) = 4 := by
  refine ⟨?_, ?_, ?_, by norm_num [pyRound1]⟩
  · rw [ragas_records_eq, ragas_records_eq, flatten_rec_of_filter]
  · intro h
    constructor
    · simp [avg_metrics, h]
    · simp [candidate_score, h]
  · intro h
    simp [candidate_score, h]

/-- Metric-mean stub returning means 0.8, 0.6, 1.0. -/
def exMeans : List RagasRecord → ℚ × ℚ × ℚ := fun _ => (4 / 5, 3 / 5, 1)

/-- Question set with a single entry, for concrete aggregator runs. -/
def exQs : List InterviewQuestion := [⟨"Q1", "skill", ["A", "B"]⟩]

/-- Evaluation list with one answered item matching the question set. -/
def exEvs : List RagasEvalItem := [⟨"Q1", "a decent answer", none⟩]

/-- Witness for C8: one surviving record and means 0.8, 0.6, 1.0 give
composite 4.0. -/
theorem aggregator_composite_score_witness :
    ragas_records exQs exEvs ≠ []
      ∧ candidate_score exMeans exQs exEvs = 4 := by
  have hne : ragas_records exQs exEvs ≠ [] := by decide
  refine ⟨hne, ?_⟩
  rw [(aggregator_composite_score exMeans exQs exEvs).2.2.1 hne]
  norm_num [exMeans, pyRound1]

/-- C10: every aggregator record stems from an evaluation item whose
question text exactly matches a question-set entry; an item whose question
matches no entry contributes no record, regardless of its answer. -/
theorem records_require_question_match
    (questions : List InterviewQuestion) (evaluation : List RagasEvalItem) :
    (∀ r ∈ ragas_records questions evaluation,
        ∃ q ∈ questions, q.question = r.question)
      ∧ (∀ ev : RagasEvalItem, (∀ q ∈ questions, q.question ≠ ev.question) →
          ragas_records questions (evaluation ++ [ev])
            = ragas_records questions evaluation) := by
  constructor
  · intro r hr
    rw [ragas_records_eq, List.mem_flatten] at hr
    obtain ⟨l, hl, hrl⟩ := hr
    rw [List.mem_map] at hl
    obtain ⟨ev, hev, hevl⟩ := hl
    rw [← hevl] at hrl
    obtain ⟨hq, q, hqmem, hqq⟩ := rec_of_question_mem questions ev r hrl
    exact ⟨q, hqmem, hqq.trans hq.symm⟩
  · intro ev h
    rw [ragas_records_eq, ragas_records_eq, List.map_append,
      List.flatten_append]
    have hnone : rec_of questions ev = [] := by
      simp [rec_of, outline_map_get_none questions ev.question h]
    simp [hnone]

/-- Witness for C10: the single record produced from `exQs`/`exEvs` indeed
carries the question text of a question-set entry. -/
theorem records_require_question_match_witness :
    (⟨"Q1", "a decent answer", ["A B"], "A B"⟩ : RagasRecord)
        ∈ ragas_records exQs exEvs
      ∧ ∃ q ∈ exQs, q.question = "Q1" :=
  ⟨by decide,
    (records_require_question_match exQs exEvs).1
      ⟨"Q1", "a decent answer", ["A B"], "A B"⟩ (by decide)⟩

end Recruit



